import Mathlib

/-!
Verification of the UWB JNI notification-marshalling layer
(`service/uci/jni/UwbEventManager.cpp`, the active version, and
`service/uci/jni_unused/UwbEventManager.cpp`, the superseded version, with
the constants of `service/uci/jni_unused/UwbJniInternal.h`).

The C++ code is embedded shallowly: each notification handler becomes a pure
Lean function from its inputs (the notification struct, whether the scoped
JNI environment is available, whether the cached callback method id is
non-null, whether the listener callback throws) to an explicit outcome value
recording what the handler constructed and delivered.  Byte buffers inside
the native structs are modelled as total functions `Nat → Nat` (byte at
index); copying `n` bytes out of a buffer is `(List.range n).map buf`, so a
marshalled byte array's length is exactly the copy length used by the code.
Machine integers are modelled as `Nat`; the only place widths matter is the
16-bit `message_control` word, and the relevant theorems carry the bound
`mc < 65536` explicitly.
-/

/- ------------------------------------------------------------------ -/
/- Constants from service/uci/jni_unused/UwbJniInternal.h (lines 36-58) -/
/- ------------------------------------------------------------------ -/

def TDOA_TX_TIMESTAMP_OFFSET : Nat := 0x00FF

def TDOA_TX_TIMESTAMP_OFFSET_MASK : Nat := 0x06

def TDOA_RX_TIMESTAMP_OFFSET : Nat := 0x00FF

def TDOA_RX_TIMESTAMP_OFFSET_MASK : Nat := 0x18

def TDOA_ANCHOR_LOC_OFFSET : Nat := 0x00FF

def TDOA_ANCHOR_LOC_OFFSET_MASK : Nat := 0x60

def TDOA_ACTIVE_RR_OFFSET : Nat := 0x0FF0

def TDOA_ACTIVE_RR_OFFSET_MASK : Nat := 0x0780

def TDOA_TX_TIMESTAMP_40BITS : Nat := 0

def TDOA_TX_TIMESTAMP_64BITS : Nat := 2

def TDOA_RX_TIMESTAMP_40BITS : Nat := 0

def TDOA_RX_TIMESTAMP_64BITS : Nat := 8

def TDOA_ANCHOR_LOC_NOT_INCLUDED : Nat := 0

def TDOA_ANCHOR_LOC_IN_RELATIVE_SYSTEM : Nat := 0x40

def TDOA_ANCHOR_LOC_IN_WGS84_SYSTEM : Nat := 0x20

def MAC_SHORT_ADD_LEN : Nat := 2

def MAC_EXT_ADD_LEN : Nat := 8

def TDOA_TIMESTAMP_LEN_40BITS : Nat := 5

def TDOA_TIMESTAMP_LEN_64BITS : Nat := 8

def TDOA_ANCHOR_LOC_LEN_10BYTES : Nat := 10

def TDOA_ANCHOR_LOC_LEN_12BYTES : Nat := 12

def TDOA_ACTIVE_RR_INDEX_POSITION : Nat := 7

/-- Modelled from the spec: the measurement-type tag values
(`MEASUREMENT_TYPE_TWOWAY` etc.) come from a UWB stack header that is not
among the sources; only their pairwise distinctness matters here. -/
def MEASUREMENT_TYPE_TWOWAY : Nat := 1

/-- Modelled from the spec: tag value for downlink-TDoA measurements, from a
UWB stack header not among the sources. -/
def MEASUREMENT_TYPE_DLTDOA : Nat := 2

/-- Modelled from the spec: tag value for one-way-with-AoA measurements,
from a UWB stack header not among the sources. -/
def MEASUREMENT_TYPE_OWR_WITH_AOA : Nat := 3

/-- Modelled from the spec: the short-address-mode indicator value, from a
UWB stack header not among the sources; the handlers only compare the
address-mode field against it for equality. -/
def SHORT_MAC_ADDRESS : Nat := 0

/-- Modelled from the spec: the fixed maximum controlee count
(`MAX_NUM_CONTROLLEES`), from a UWB stack header not among the sources; the
claims about it are parametric in the value. -/
def MAX_NUM_CONTROLLEES : Nat := 8

/- ------------------------------------------------------------------ -/
/- Bit-mask absorption: the double masks used by the code              -/
/- ------------------------------------------------------------------ -/

/-- If every bit of `b` is also set in `a` (i.e. `b &&& a = b`), then
masking with `a` first and then `b` is the same as masking with `b` alone.
This is the shape of every double mask in the DL-TDoA decode. -/
theorem land_absorb (m a b : Nat) (h : b &&& a = b) : m &&& a &&& b = m &&& b := by
  apply Nat.eq_of_testBit_eq
  intro i
  have hb : (b.testBit i && a.testBit i) = b.testBit i := by
    have := congrArg (fun x => Nat.testBit x i) h
    simpa [Nat.testBit_land] using this
  simp only [Nat.testBit_land]
  cases hA : a.testBit i <;> cases hB : b.testBit i <;> simp_all

/- ------------------------------------------------------------------ -/
/- DL-TDoA sub-field decoding                                          -/
/- (jni_unused/UwbEventManager.cpp, onRangeDataNotificationReceived)   -/
/- ------------------------------------------------------------------ -/

/-- Lines 203-222: decode the tx-timestamp sub-field from the
message-control word.  Returns the marshalled byte array (`none` when the
jbyteArray stays NULL) and whether the `Invalid dlTdoaTxTimeStamp` error
trace was emitted. -/
def decodeTxTimeStamp (message_control : Nat) (txTimeStamp : Nat → Nat) :
    Option (List Nat) × Bool :=
  let txTimeStampValue :=
    (message_control &&& TDOA_TX_TIMESTAMP_OFFSET) &&& TDOA_TX_TIMESTAMP_OFFSET_MASK
  if txTimeStampValue = TDOA_TX_TIMESTAMP_40BITS then
    (some ((List.range TDOA_TIMESTAMP_LEN_40BITS).map txTimeStamp), false)
  else if txTimeStampValue = TDOA_TX_TIMESTAMP_64BITS then
    (some ((List.range TDOA_TIMESTAMP_LEN_64BITS).map txTimeStamp), false)
  else
    (none, true)

/-- Lines 224-243: decode the rx-timestamp sub-field, same shape as the tx
one but with mask `0x18` and 64-bit selector `8`. -/
def decodeRxTimeStamp (message_control : Nat) (rxTimeStamp : Nat → Nat) :
    Option (List Nat) × Bool :=
  let rxTimeStampValue :=
    (message_control &&& TDOA_RX_TIMESTAMP_OFFSET) &&& TDOA_RX_TIMESTAMP_OFFSET_MASK
  if rxTimeStampValue = TDOA_RX_TIMESTAMP_40BITS then
    (some ((List.range TDOA_TIMESTAMP_LEN_40BITS).map rxTimeStamp), false)
  else if rxTimeStampValue = TDOA_RX_TIMESTAMP_64BITS then
    (some ((List.range TDOA_TIMESTAMP_LEN_64BITS).map rxTimeStamp), false)
  else
    (none, true)

/-- Lines 245-266: decode the anchor-location sub-field.  Value 0 means the
field is simply not included (an info trace, not an error); `0x40` selects
the 10-byte relative-system form, `0x20` the 12-byte WGS84 form; anything
else leaves the field NULL and emits the `Invalid dlTdoaAnchorLocation`
error trace. -/
def decodeAnchorLocation (message_control : Nat) (anchor_location : Nat → Nat) :
    Option (List Nat) × Bool :=
  let anchorLocationValue :=
    (message_control &&& TDOA_ANCHOR_LOC_OFFSET) &&& TDOA_ANCHOR_LOC_OFFSET_MASK
  if anchorLocationValue = TDOA_ANCHOR_LOC_NOT_INCLUDED then
    (none, false)
  else if anchorLocationValue = TDOA_ANCHOR_LOC_IN_RELATIVE_SYSTEM then
    (some ((List.range TDOA_ANCHOR_LOC_LEN_10BYTES).map anchor_location), false)
  else if anchorLocationValue = TDOA_ANCHOR_LOC_IN_WGS84_SYSTEM then
    (some ((List.range TDOA_ANCHOR_LOC_LEN_12BYTES).map anchor_location), false)
  else
    (none, true)

/-- Lines 268-282: decode the active-ranging-round list; its length is the
double-masked, shifted value, and length 0 means the field stays NULL. -/
def decodeActiveRangingRound (message_control : Nat) (active_ranging_round : Nat → Nat) :
    Option (List Nat) :=
  let activeRangingRoundValue :=
    ((message_control &&& TDOA_ACTIVE_RR_OFFSET) &&& TDOA_ACTIVE_RR_OFFSET_MASK) >>>
      TDOA_ACTIVE_RR_INDEX_POSITION
  if activeRangingRoundValue ≠ 0 then
    some ((List.range activeRangingRoundValue).map active_ranging_round)
  else
    none

/- ------------------------------------------------------------------ -/
/- Claims C1-C3                                                        -/
/- ------------------------------------------------------------------ -/

/-- C1: for every downlink-TDoA measurement record (16-bit message-control
word), tx-bits `mc &&& 0x06 = 0` gives a tx-timestamp of exactly 5 bytes,
tx-bits `= 2` gives exactly 8 bytes, and any other tx-bits value leaves the
field absent with the decode warning recorded.  The decode is total (no
crash), and the copies read exactly 5 or 8 bytes from the fixed buffer. -/
theorem dltdoa_tx_timestamp_spec (mc : Nat) (buf : Nat → Nat) (h16 : mc < 65536) :
    (mc &&& 0x06 = 0 →
      ∃ l, decodeTxTimeStamp mc buf = (some l, false) ∧ l.length = 5) ∧
    (mc &&& 0x06 = 2 →
      ∃ l, decodeTxTimeStamp mc buf = (some l, false) ∧ l.length = 8) ∧
    (mc &&& 0x06 ≠ 0 → mc &&& 0x06 ≠ 2 →
      decodeTxTimeStamp mc buf = (none, true)) := by
  have habs : mc &&& 0x00FF &&& 0x06 = mc &&& 0x06 :=
    land_absorb mc 0x00FF 0x06 (by decide)
  refine ⟨?_, ?_, ?_⟩
  · intro h
    refine ⟨(List.range 5).map buf, ?_, by simp⟩
    simp [decodeTxTimeStamp, TDOA_TX_TIMESTAMP_OFFSET, TDOA_TX_TIMESTAMP_OFFSET_MASK,
      TDOA_TX_TIMESTAMP_40BITS, TDOA_TIMESTAMP_LEN_40BITS, habs, h]
  · intro h
    refine ⟨(List.range 8).map buf, ?_, by simp⟩
    simp [decodeTxTimeStamp, TDOA_TX_TIMESTAMP_OFFSET, TDOA_TX_TIMESTAMP_OFFSET_MASK,
      TDOA_TX_TIMESTAMP_40BITS, TDOA_TX_TIMESTAMP_64BITS, TDOA_TIMESTAMP_LEN_64BITS,
      habs, h]
  · intro h0 h2
    simp [decodeTxTimeStamp, TDOA_TX_TIMESTAMP_OFFSET, TDOA_TX_TIMESTAMP_OFFSET_MASK,
      TDOA_TX_TIMESTAMP_40BITS, TDOA_TX_TIMESTAMP_64BITS, habs, h0, h2]

/-- C1 witness: instantiated at control words 0, 2 and 4. -/
theorem dltdoa_tx_timestamp_spec_witness :
    (∃ l, decodeTxTimeStamp 0 (fun _ => 0) = (some l, false) ∧ l.length = 5) ∧
    (∃ l, decodeTxTimeStamp 2 (fun _ => 0) = (some l, false) ∧ l.length = 8) ∧
    decodeTxTimeStamp 4 (fun _ => 0) = (none, true) :=
  ⟨(dltdoa_tx_timestamp_spec 0 (fun _ => 0) (by decide)).1 (by decide),
   (dltdoa_tx_timestamp_spec 2 (fun _ => 0) (by decide)).2.1 (by decide),
   (dltdoa_tx_timestamp_spec 4 (fun _ => 0) (by decide)).2.2 (by decide) (by decide)⟩

/-- C2: anchor-location bits `mc &&& 0x60 = 0` give an absent field (no
warning), `0x40` gives exactly 10 bytes (relative system), `0x20` exactly
12 bytes (WGS84), and any other value of those bits (only `0x60` is
possible) leaves the field absent with the decode warning recorded. -/
theorem dltdoa_anchor_location_spec (mc : Nat) (buf : Nat → Nat) (h16 : mc < 65536) :
    (mc &&& 0x60 = 0 → decodeAnchorLocation mc buf = (none, false)) ∧
    (mc &&& 0x60 = 0x40 →
      ∃ l, decodeAnchorLocation mc buf = (some l, false) ∧ l.length = 10) ∧
    (mc &&& 0x60 = 0x20 →
      ∃ l, decodeAnchorLocation mc buf = (some l, false) ∧ l.length = 12) ∧
    (mc &&& 0x60 ≠ 0 → mc &&& 0x60 ≠ 0x40 → mc &&& 0x60 ≠ 0x20 →
      decodeAnchorLocation mc buf = (none, true)) := by
  have habs : mc &&& 0x00FF &&& 0x60 = mc &&& 0x60 :=
    land_absorb mc 0x00FF 0x60 (by decide)
  refine ⟨?_, ?_, ?_, ?_⟩
  · intro h
    simp [decodeAnchorLocation, TDOA_ANCHOR_LOC_OFFSET, TDOA_ANCHOR_LOC_OFFSET_MASK,
      TDOA_ANCHOR_LOC_NOT_INCLUDED, habs, h]
  · intro h
    refine ⟨(List.range 10).map buf, ?_, by simp⟩
    simp [decodeAnchorLocation, TDOA_ANCHOR_LOC_OFFSET, TDOA_ANCHOR_LOC_OFFSET_MASK,
      TDOA_ANCHOR_LOC_NOT_INCLUDED, TDOA_ANCHOR_LOC_IN_RELATIVE_SYSTEM,
      TDOA_ANCHOR_LOC_LEN_10BYTES, habs, h]
  · intro h
    refine ⟨(List.range 12).map buf, ?_, by simp⟩
    simp [decodeAnchorLocation, TDOA_ANCHOR_LOC_OFFSET, TDOA_ANCHOR_LOC_OFFSET_MASK,
      TDOA_ANCHOR_LOC_NOT_INCLUDED, TDOA_ANCHOR_LOC_IN_RELATIVE_SYSTEM,
      TDOA_ANCHOR_LOC_IN_WGS84_SYSTEM, TDOA_ANCHOR_LOC_LEN_12BYTES, habs, h]
  · intro h0 h40 h20
    simp [decodeAnchorLocation, TDOA_ANCHOR_LOC_OFFSET, TDOA_ANCHOR_LOC_OFFSET_MASK,
      TDOA_ANCHOR_LOC_NOT_INCLUDED, TDOA_ANCHOR_LOC_IN_RELATIVE_SYSTEM,
      TDOA_ANCHOR_LOC_IN_WGS84_SYSTEM, habs, h0, h40, h20]

/-- C2 witness: instantiated at control words 0, 0x40, 0x20 and 0x60. -/
theorem dltdoa_anchor_location_spec_witness :
    decodeAnchorLocation 0 (fun _ => 0) = (none, false) ∧
    (∃ l, decodeAnchorLocation 0x40 (fun _ => 0) = (some l, false) ∧ l.length = 10) ∧
    (∃ l, decodeAnchorLocation 0x20 (fun _ => 0) = (some l, false) ∧ l.length = 12) ∧
    decodeAnchorLocation 0x60 (fun _ => 0) = (none, true) :=
  ⟨(dltdoa_anchor_location_spec 0 (fun _ => 0) (by decide)).1 (by decide),
   (dltdoa_anchor_location_spec 0x40 (fun _ => 0) (by decide)).2.1 (by decide),
   (dltdoa_anchor_location_spec 0x20 (fun _ => 0) (by decide)).2.2.1 (by decide),
   (dltdoa_anchor_location_spec 0x60 (fun _ => 0) (by decide)).2.2.2
     (by decide) (by decide) (by decide)⟩

/-- C3: the decoded active-ranging-round array has length
`(mc &&& 0x0780) >>> 7`, the field is absent exactly when that value is 0,
and the code's double masking `((mc &&& 0x0FF0) &&& 0x0780) >>> 7` computes
exactly this value for every 16-bit control word. -/
theorem dltdoa_active_rr_spec (mc : Nat) (buf : Nat → Nat) (h16 : mc < 65536) :
    (((mc &&& 0x0FF0) &&& 0x0780) >>> 7 = (mc &&& 0x0780) >>> 7) ∧
    ((mc &&& 0x0780) >>> 7 ≠ 0 →
      ∃ l, decodeActiveRangingRound mc buf = some l ∧
        l.length = (mc &&& 0x0780) >>> 7) ∧
    ((mc &&& 0x0780) >>> 7 = 0 → decodeActiveRangingRound mc buf = none) := by
  have habs : mc &&& 0x0FF0 &&& 0x0780 = mc &&& 0x0780 :=
    land_absorb mc 0x0FF0 0x0780 (by decide)
  refine ⟨by rw [habs], ?_, ?_⟩
  · intro h
    refine ⟨(List.range ((mc &&& 0x0780) >>> 7)).map buf, ?_, by simp⟩
    simp [decodeActiveRangingRound, TDOA_ACTIVE_RR_OFFSET, TDOA_ACTIVE_RR_OFFSET_MASK,
      TDOA_ACTIVE_RR_INDEX_POSITION, habs, h]
  · intro h
    simp [decodeActiveRangingRound, TDOA_ACTIVE_RR_OFFSET, TDOA_ACTIVE_RR_OFFSET_MASK,
      TDOA_ACTIVE_RR_INDEX_POSITION, habs, h]

/-- C3 witness: instantiated at a control word selecting a 3-element list
(`0x0180 >>> 7 = 3`) and at one selecting the absent field. -/
theorem dltdoa_active_rr_spec_witness :
    (∃ l, decodeActiveRangingRound 0x0180 (fun _ => 0) = some l ∧ l.length = 3) ∧
    decodeActiveRangingRound 0 (fun _ => 0) = none := by
  refine ⟨?_, (dltdoa_active_rr_spec 0 (fun _ => 0) (by decide)).2.2 (by decide)⟩
  have h := (dltdoa_active_rr_spec 0x0180 (fun _ => 0) (by decide)).2.1 (by decide)
  obtain ⟨l, hl, hlen⟩ := h
  exact ⟨l, hl, hlen.trans (by decide)⟩

/- ------------------------------------------------------------------ -/
/- The shared delivery tail: CallVoidMethod / ExceptionCheck /         -/
/- ExceptionClear, identical in every handler of both versions         -/
/- ------------------------------------------------------------------ -/

/-- The JNI environment's pending-exception flag, the only piece of JNI
state the handlers interact with after invoking the callback. -/
structure JniState where
  pendingException : Bool
deriving DecidableEq

/-- `env->CallVoidMethod(...)`: after the call returns, an exception is
pending exactly when the managed callback threw. -/
def CallVoidMethod (throws : Bool) (_s : JniState) : JniState :=
  { pendingException := throws }

/-- `env->ExceptionCheck()`. -/
def ExceptionCheck (s : JniState) : Bool :=
  s.pendingException

/-- `env->ExceptionClear()`. -/
def ExceptionClear (_s : JniState) : JniState :=
  { pendingException := false }

/-- The delivery tail shared verbatim by every handler in both versions:
invoke the callback, then `if (env->ExceptionCheck()) { env->ExceptionClear();
JNI_TRACE_E(...); }`.  Returns the JNI state at handler return and whether
the failure trace was logged. -/
def deliverAndHandle (throws : Bool) (s : JniState) : JniState × Bool :=
  let s1 := CallVoidMethod throws s
  if ExceptionCheck s1 then
    (ExceptionClear s1, true)
  else
    (s1, false)

/-- Outcome of one notification handler call: what it constructed and
whether the listener callback was invoked.  `delivered obj faultLogged`
records a callback invocation on the marshalled `obj` (with `faultLogged`
true when the callback threw and the exception was cleared and logged);
`notDelivered obj` records the guarded skip when the cached method id is
NULL (carrying the object that was still constructed, if any);
`nullEnvDeref` marks a path that uses the scoped JNI environment without
having null-checked it (undefined behaviour in the C++). -/
inductive NtfOutcome (Obj : Type) where
  | envNullReturn : NtfOutcome Obj
  | inputRejected : NtfOutcome Obj
  | rejectedTooMany : NtfOutcome Obj
  | nullEnvDeref : NtfOutcome Obj
  | delivered (obj : Obj) (faultLogged : Bool) : NtfOutcome Obj
  | notDelivered (obj : Option Obj) : NtfOutcome Obj
deriving DecidableEq

/-- The guarded callback invocation `if (mid != NULL) { CallVoidMethod;
ExceptionCheck/Clear } else { JNI_TRACE_E(...); }` shared by the handlers. -/
def dispatchToListener {Obj : Type} (mid throws : Bool) (obj : Obj) : NtfOutcome Obj :=
  if mid then
    NtfOutcome.delivered obj (deliverAndHandle throws { pendingException := false }).2
  else
    NtfOutcome.notDelivered (some obj)

/- ------------------------------------------------------------------ -/
/- Native structs (fields read by the handlers; byte buffers are        -/
/- byte-at-index functions)                                            -/
/- ------------------------------------------------------------------ -/

/-- One entry of `ranging_measures.twr_range_measr` (two-way measurement).
`rssi` is present in the struct; only the superseded version marshals it. -/
structure TwrRangeMeasr where
  mac_addr : Nat → Nat
  rfu : Nat → Nat
  status : Nat
  nLos : Nat
  distance : Nat
  aoa_azimuth : Nat
  aoa_azimuth_FOM : Nat
  aoa_elevation : Nat
  aoa_elevation_FOM : Nat
  aoa_dest_azimuth : Nat
  aoa_dest_azimuth_FOM : Nat
  aoa_dest_elevation : Nat
  aoa_dest_elevation_FOM : Nat
  slot_index : Nat
  rssi : Nat

/-- One entry of `ranging_measures.dltdoa_range_measr` (downlink-TDoA
measurement, superseded version only). -/
structure DlTdoaRangeMeasr where
  mac_addr : Nat → Nat
  status : Nat
  message_type : Nat
  message_control : Nat
  block_index : Nat
  round_index : Nat
  nLos : Nat
  aoa_azimuth : Nat
  aoa_azimuth_FOM : Nat
  aoa_elevation : Nat
  aoa_elevation_FOM : Nat
  txTimeStamp : Nat → Nat
  rxTimeStamp : Nat → Nat
  cfo_anchor : Nat
  cfo : Nat
  initiator_reply_time : Nat
  responder_reply_time : Nat
  initiator_responder_TOF : Nat
  anchor_location : Nat → Nat
  active_ranging_round : Nat → Nat

/-- The `ranging_measures.owr_with_aoa_range_measr` entry (one-way-with-AoA
measurement, superseded version only). -/
structure OwrAoaRangeMeasr where
  mac_addr : Nat → Nat
  status : Nat
  nLos : Nat
  frame_seq_num : Nat
  block_index : Nat
  aoa_azimuth : Nat
  aoa_azimuth_FOM : Nat
  aoa_elevation : Nat
  aoa_elevation_FOM : Nat

/-- One entry of `ranging_measures.tdoa_range_measr` (one-way TDoA
measurement, active version only). -/
structure TdoaRangeMeasr where
  mac_addr : Nat → Nat
  rfu : Nat → Nat
  frame_type : Nat
  nLos : Nat
  aoa_azimuth : Nat
  aoa_azimuth_FOM : Nat
  aoa_elevation : Nat
  aoa_elevation_FOM : Nat
  timeStamp : Nat
  blink_frame_number : Nat
  device_info_size : Nat
  device_info : Nat → Nat
  blink_payload_size : Nat
  blink_payload_data : Nat → Nat

/-- The `tUWA_RANGE_DATA_NTF` struct, with the measurement union modelled
as all members present (the handlers read the member selected by the
`ranging_measure_type` tag). -/
structure RangeDataNtf where
  seq_counter : Nat
  session_id : Nat
  rcr_indication : Nat
  curr_range_interval : Nat
  ranging_measure_type : Nat
  mac_addr_mode_indicator : Nat
  no_of_measurements : Nat
  twr_range_measr : Nat → TwrRangeMeasr
  dltdoa_range_measr : Nat → DlTdoaRangeMeasr
  owr_with_aoa_range_measr : OwrAoaRangeMeasr
  tdoa_range_measr : Nat → TdoaRangeMeasr
  vendor_specific_ntf_len : Nat
  vendor_specific_ntf_data : Nat → Nat

/- ------------------------------------------------------------------ -/
/- Marshalled managed objects                                          -/
/- ------------------------------------------------------------------ -/

/-- `com/android/uwb/data/UwbTwoWayMeasurement` as constructed by the
active version (constructor signature `([BIIIIIIIIIIII)V`, no rssi). -/
structure UwbTwoWayMeasurementA where
  macAddress : List Nat
  status : Nat
  nLos : Nat
  distance : Nat
  aoa_azimuth : Nat
  aoa_azimuth_FOM : Nat
  aoa_elevation : Nat
  aoa_elevation_FOM : Nat
  aoa_dest_azimuth : Nat
  aoa_dest_azimuth_FOM : Nat
  aoa_dest_elevation : Nat
  aoa_dest_elevation_FOM : Nat
  slot_index : Nat
  rfu : List Nat
deriving DecidableEq

/-- `com/android/server/uwb/data/UwbTwoWayMeasurement` as constructed by
the superseded version (constructor signature `([BIIIIIIIIIIIII)V`, with
rssi). -/
structure UwbTwoWayMeasurementU where
  macAddress : List Nat
  status : Nat
  nLos : Nat
  distance : Nat
  aoa_azimuth : Nat
  aoa_azimuth_FOM : Nat
  aoa_elevation : Nat
  aoa_elevation_FOM : Nat
  aoa_dest_azimuth : Nat
  aoa_dest_azimuth_FOM : Nat
  aoa_dest_elevation : Nat
  aoa_dest_elevation_FOM : Nat
  slot_index : Nat
  rssi : Nat
  rfu : List Nat
deriving DecidableEq

/-- Active version, lines 81-116: marshal one two-way measurement.  The
address-mode branch fixes the mac-address copy at 2 bytes with a 12-byte
rfu (short mode) or 8 bytes with a 6-byte rfu (extended mode). -/
def marshalTwoWayMeasurementA (mac_addr_mode_indicator : Nat) (m : TwrRangeMeasr) :
    UwbTwoWayMeasurementA :=
  let macAddress :=
    if mac_addr_mode_indicator = SHORT_MAC_ADDRESS then (List.range 2).map m.mac_addr
    else (List.range 8).map m.mac_addr
  let rfu :=
    if mac_addr_mode_indicator = SHORT_MAC_ADDRESS then (List.range 12).map m.rfu
    else (List.range 6).map m.rfu
  { macAddress := macAddress
    status := m.status
    nLos := m.nLos
    distance := m.distance
    aoa_azimuth := m.aoa_azimuth
    aoa_azimuth_FOM := m.aoa_azimuth_FOM
    aoa_elevation := m.aoa_elevation
    aoa_elevation_FOM := m.aoa_elevation_FOM
    aoa_dest_azimuth := m.aoa_dest_azimuth
    aoa_dest_azimuth_FOM := m.aoa_dest_azimuth_FOM
    aoa_dest_elevation := m.aoa_dest_elevation
    aoa_dest_elevation_FOM := m.aoa_dest_elevation_FOM
    slot_index := m.slot_index
    rfu := rfu }

/-- Superseded version, lines 100-156: marshal one two-way measurement;
identical address/rfu branch, plus the rssi field. -/
def marshalTwoWayMeasurementU (mac_addr_mode_indicator : Nat) (m : TwrRangeMeasr) :
    UwbTwoWayMeasurementU :=
  let macAddress :=
    if mac_addr_mode_indicator = SHORT_MAC_ADDRESS then (List.range 2).map m.mac_addr
    else (List.range 8).map m.mac_addr
  let rfu :=
    if mac_addr_mode_indicator = SHORT_MAC_ADDRESS then (List.range 12).map m.rfu
    else (List.range 6).map m.rfu
  { macAddress := macAddress
    status := m.status
    nLos := m.nLos
    distance := m.distance
    aoa_azimuth := m.aoa_azimuth
    aoa_azimuth_FOM := m.aoa_azimuth_FOM
    aoa_elevation := m.aoa_elevation
    aoa_elevation_FOM := m.aoa_elevation_FOM
    aoa_dest_azimuth := m.aoa_dest_azimuth
    aoa_dest_azimuth_FOM := m.aoa_dest_azimuth_FOM
    aoa_dest_elevation := m.aoa_dest_elevation
    aoa_dest_elevation_FOM := m.aoa_dest_elevation_FOM
    slot_index := m.slot_index
    rssi := m.rssi
    rfu := rfu }

/-- C4: in both the active and superseded versions, every marshalled
two-way measurement has complementary mac-address and rfu lengths:
short-address mode gives a 2-byte address with a 12-byte rfu, any other
mode gives an 8-byte address with a 6-byte rfu, and no other combination is
producible. -/
theorem twoway_addr_rfu_complementary (mode : Nat) (m : TwrRangeMeasr) :
    (((marshalTwoWayMeasurementA mode m).macAddress.length = 2 ∧
        (marshalTwoWayMeasurementA mode m).rfu.length = 12) ∨
      ((marshalTwoWayMeasurementA mode m).macAddress.length = 8 ∧
        (marshalTwoWayMeasurementA mode m).rfu.length = 6)) ∧
    (((marshalTwoWayMeasurementU mode m).macAddress.length = 2 ∧
        (marshalTwoWayMeasurementU mode m).rfu.length = 12) ∨
      ((marshalTwoWayMeasurementU mode m).macAddress.length = 8 ∧
        (marshalTwoWayMeasurementU mode m).rfu.length = 6)) ∧
    (mode = SHORT_MAC_ADDRESS →
      (marshalTwoWayMeasurementA mode m).macAddress.length = 2 ∧
      (marshalTwoWayMeasurementA mode m).rfu.length = 12 ∧
      (marshalTwoWayMeasurementU mode m).macAddress.length = 2 ∧
      (marshalTwoWayMeasurementU mode m).rfu.length = 12) ∧
    (mode ≠ SHORT_MAC_ADDRESS →
      (marshalTwoWayMeasurementA mode m).macAddress.length = 8 ∧
      (marshalTwoWayMeasurementA mode m).rfu.length = 6 ∧
      (marshalTwoWayMeasurementU mode m).macAddress.length = 8 ∧
      (marshalTwoWayMeasurementU mode m).rfu.length = 6) := by
  by_cases h : mode = SHORT_MAC_ADDRESS <;>
    simp [marshalTwoWayMeasurementA, marshalTwoWayMeasurementU, h]

/-- A sample two-way measurement entry for concrete instantiations. -/
def sampleTwr : TwrRangeMeasr :=
  { mac_addr := fun _ => 0
    rfu := fun _ => 0
    status := 0
    nLos := 0
    distance := 150
    aoa_azimuth := 0
    aoa_azimuth_FOM := 0
    aoa_elevation := 0
    aoa_elevation_FOM := 0
    aoa_dest_azimuth := 0
    aoa_dest_azimuth_FOM := 0
    aoa_dest_elevation := 0
    aoa_dest_elevation_FOM := 0
    slot_index := 0
    rssi := 0 }

/-- C4 witness: instantiated at the short and extended address modes. -/
theorem twoway_addr_rfu_complementary_witness :
    ((marshalTwoWayMeasurementA SHORT_MAC_ADDRESS sampleTwr).macAddress.length = 2 ∧
      (marshalTwoWayMeasurementA SHORT_MAC_ADDRESS sampleTwr).rfu.length = 12 ∧
      (marshalTwoWayMeasurementU SHORT_MAC_ADDRESS sampleTwr).macAddress.length = 2 ∧
      (marshalTwoWayMeasurementU SHORT_MAC_ADDRESS sampleTwr).rfu.length = 12) ∧
    ((marshalTwoWayMeasurementA 1 sampleTwr).macAddress.length = 8 ∧
      (marshalTwoWayMeasurementA 1 sampleTwr).rfu.length = 6 ∧
      (marshalTwoWayMeasurementU 1 sampleTwr).macAddress.length = 8 ∧
      (marshalTwoWayMeasurementU 1 sampleTwr).rfu.length = 6) :=
  ⟨(twoway_addr_rfu_complementary SHORT_MAC_ADDRESS sampleTwr).2.2.1 rfl,
   (twoway_addr_rfu_complementary 1 sampleTwr).2.2.2 (by decide)⟩

/- ------------------------------------------------------------------ -/
/- Remaining marshalled objects                                        -/
/- ------------------------------------------------------------------ -/

/-- `com/android/server/uwb/data/UwbDownLinkTDoAMeasurement` as
constructed by the superseded version (constructor signature
`([BIIIIIIIIII[B[BIIJJI[B[B)V`). -/
structure UwbDownLinkTDoAMeasurement where
  macAddress : List Nat
  status : Nat
  message_type : Nat
  message_control : Nat
  block_index : Nat
  round_index : Nat
  nLos : Nat
  aoa_azimuth : Nat
  aoa_azimuth_FOM : Nat
  aoa_elevation : Nat
  aoa_elevation_FOM : Nat
  txTimeStamp : Option (List Nat)
  rxTimeStamp : Option (List Nat)
  cfo_anchor : Nat
  cfo : Nat
  initiator_reply_time : Nat
  responder_reply_time : Nat
  initiator_responder_TOF : Nat
  anchorLocation : Option (List Nat)
  activeRangingRound : Option (List Nat)
deriving DecidableEq

/-- `com/android/server/uwb/data/UwbOwrAoaMeasurement` as constructed by
the superseded version (constructor signature `([BIIIIIIII)V`). -/
structure UwbOwrAoaMeasurement where
  macAddress : List Nat
  status : Nat
  nLos : Nat
  frame_seq_num : Nat
  block_index : Nat
  aoa_azimuth : Nat
  aoa_azimuth_FOM : Nat
  aoa_elevation : Nat
  aoa_elevation_FOM : Nat
deriving DecidableEq

/-- `com/android/uwb/data/UwbTDoAMeasurement` as constructed by the active
version (constructor signature `([BIIIIIIJJ[B[B[B)V`). -/
structure UwbTDoAMeasurement where
  macAddress : List Nat
  frame_type : Nat
  nLos : Nat
  aoa_azimuth : Nat
  aoa_azimuth_FOM : Nat
  aoa_elevation : Nat
  aoa_elevation_FOM : Nat
  timeStamp : Nat
  blink_frame_number : Nat
  rfu : List Nat
  deviceInfo : Option (List Nat)
  blinkPayload : Option (List Nat)
deriving DecidableEq

/-- Superseded version, lines 177-321: marshal one downlink-TDoA
measurement, resolving the four variable-length sub-fields from the
message-control word. -/
def marshalDlTdoaMeasurement (mac_addr_mode_indicator : Nat) (m : DlTdoaRangeMeasr) :
    UwbDownLinkTDoAMeasurement :=
  let dlTdoaMacAddress :=
    if mac_addr_mode_indicator = SHORT_MAC_ADDRESS then
      (List.range MAC_SHORT_ADD_LEN).map m.mac_addr
    else
      (List.range MAC_EXT_ADD_LEN).map m.mac_addr
  { macAddress := dlTdoaMacAddress
    status := m.status
    message_type := m.message_type
    message_control := m.message_control
    block_index := m.block_index
    round_index := m.round_index
    nLos := m.nLos
    aoa_azimuth := m.aoa_azimuth
    aoa_azimuth_FOM := m.aoa_azimuth_FOM
    aoa_elevation := m.aoa_elevation
    aoa_elevation_FOM := m.aoa_elevation_FOM
    txTimeStamp := (decodeTxTimeStamp m.message_control m.txTimeStamp).1
    rxTimeStamp := (decodeRxTimeStamp m.message_control m.rxTimeStamp).1
    cfo_anchor := m.cfo_anchor
    cfo := m.cfo
    initiator_reply_time := m.initiator_reply_time
    responder_reply_time := m.responder_reply_time
    initiator_responder_TOF := m.initiator_responder_TOF
    anchorLocation := (decodeAnchorLocation m.message_control m.anchor_location).1
    activeRangingRound := decodeActiveRangingRound m.message_control m.active_ranging_round }

/-- Superseded version, lines 341-370: marshal the one-way-with-AoA
measurement. -/
def marshalOwrAoaMeasurement (mac_addr_mode_indicator : Nat) (m : OwrAoaRangeMeasr) :
    UwbOwrAoaMeasurement :=
  let owrAoaMacAddress :=
    if mac_addr_mode_indicator = SHORT_MAC_ADDRESS then (List.range 2).map m.mac_addr
    else (List.range 8).map m.mac_addr
  { macAddress := owrAoaMacAddress
    status := m.status
    nLos := m.nLos
    frame_seq_num := m.frame_seq_num
    block_index := m.block_index
    aoa_azimuth := m.aoa_azimuth
    aoa_azimuth_FOM := m.aoa_azimuth_FOM
    aoa_elevation := m.aoa_elevation
    aoa_elevation_FOM := m.aoa_elevation_FOM }

/-- Active version, lines 138-185: marshal one one-way TDoA measurement;
device-info and blink-payload arrays are built only for positive sizes. -/
def marshalTdoaMeasurementA (mac_addr_mode_indicator : Nat) (m : TdoaRangeMeasr) :
    UwbTDoAMeasurement :=
  let tdoaMacAddress :=
    if mac_addr_mode_indicator = SHORT_MAC_ADDRESS then (List.range 2).map m.mac_addr
    else (List.range 8).map m.mac_addr
  let rfu :=
    if mac_addr_mode_indicator = SHORT_MAC_ADDRESS then (List.range 12).map m.rfu
    else (List.range 6).map m.rfu
  let deviceInfoArray :=
    if m.device_info_size > 0 then some ((List.range m.device_info_size).map m.device_info)
    else none
  let blinkPayloadData :=
    if m.blink_payload_size > 0 then
      some ((List.range m.blink_payload_size).map m.blink_payload_data)
    else none
  { macAddress := tdoaMacAddress
    frame_type := m.frame_type
    nLos := m.nLos
    aoa_azimuth := m.aoa_azimuth
    aoa_azimuth_FOM := m.aoa_azimuth_FOM
    aoa_elevation := m.aoa_elevation
    aoa_elevation_FOM := m.aoa_elevation_FOM
    timeStamp := m.timeStamp
    blink_frame_number := m.blink_frame_number
    rfu := rfu
    deviceInfo := deviceInfoArray
    blinkPayload := blinkPayloadData }

/- ------------------------------------------------------------------ -/
/- Ranging-data notification handlers                                  -/
/- ------------------------------------------------------------------ -/

/-- `com/android/uwb/data/UwbRangingData` as constructed by the active
version: either the two-way form or the (one-way) TDoA form; no vendor
payload is part of either constructor. -/
inductive UwbRangingDataA where
  | twoWay (seq_counter session_id rcr_indication curr_range_interval
      ranging_measure_type mac_addr_mode_indicator no_of_measurements : Nat)
      (rangeMeasuresArray : List UwbTwoWayMeasurementA) : UwbRangingDataA
  | tdoa (seq_counter session_id rcr_indication curr_range_interval
      ranging_measure_type mac_addr_mode_indicator no_of_measurements : Nat)
      (rangeTdoaMeasuresArray : List UwbTDoAMeasurement) : UwbRangingDataA
deriving DecidableEq

/-- `com/android/server/uwb/data/UwbRangingData` as constructed by the
superseded version: two-way, downlink-TDoA or one-way-with-AoA form, each
carrying the optional vendor-specific payload. -/
inductive UwbRangingDataU where
  | twoWay (seq_counter session_id rcr_indication curr_range_interval
      ranging_measure_type mac_addr_mode_indicator no_of_measurements : Nat)
      (rangeMeasuresArray : List UwbTwoWayMeasurementU)
      (vendorSpecificData : Option (List Nat)) : UwbRangingDataU
  | dlTdoa (seq_counter session_id rcr_indication curr_range_interval
      ranging_measure_type mac_addr_mode_indicator no_of_measurements : Nat)
      (rangeDlTdoaMeasuresArray : List UwbDownLinkTDoAMeasurement)
      (vendorSpecificData : Option (List Nat)) : UwbRangingDataU
  | owrAoa (seq_counter session_id rcr_indication curr_range_interval
      ranging_measure_type mac_addr_mode_indicator no_of_measurements : Nat)
      (rangeOwrAoaMeasures : UwbOwrAoaMeasurement)
      (vendorSpecificData : Option (List Nat)) : UwbRangingDataU
deriving DecidableEq

/-- Active version, lines 60-212: `onRangeDataNotificationReceived`.  A
two-way tag takes the two-way branch; every other tag takes the TDoA
branch (`else`, line 130).  Delivery is guarded only on the cached method
id. -/
def onRangeDataNotificationReceivedA (envAvailable mid throws : Bool)
    (d : RangeDataNtf) : NtfOutcome UwbRangingDataA :=
  if envAvailable = false then
    NtfOutcome.envNullReturn
  else
    let rangeDataObject : UwbRangingDataA :=
      if d.ranging_measure_type = MEASUREMENT_TYPE_TWOWAY then
        UwbRangingDataA.twoWay d.seq_counter d.session_id d.rcr_indication
          d.curr_range_interval d.ranging_measure_type d.mac_addr_mode_indicator
          d.no_of_measurements
          ((List.range d.no_of_measurements).map fun i =>
            marshalTwoWayMeasurementA d.mac_addr_mode_indicator (d.twr_range_measr i))
      else
        UwbRangingDataA.tdoa d.seq_counter d.session_id d.rcr_indication
          d.curr_range_interval d.ranging_measure_type d.mac_addr_mode_indicator
          d.no_of_measurements
          ((List.range d.no_of_measurements).map fun i =>
            marshalTdoaMeasurementA d.mac_addr_mode_indicator (d.tdoa_range_measr i))
    dispatchToListener mid throws rangeDataObject

/-- Superseded version, lines 68-398: `onRangeDataNotificationReceived`.
The vendor payload array is built when its length is positive; the ranging
object stays NULL for a tag outside {two-way, downlink-TDoA,
one-way-with-AoA}; the final guard requires both a method id and a non-null
object. -/
def onRangeDataNotificationReceivedU (envAvailable mid throws : Bool)
    (d : RangeDataNtf) : NtfOutcome UwbRangingDataU :=
  if envAvailable = false then
    NtfOutcome.envNullReturn
  else
    let vendorSpecificData : Option (List Nat) :=
      if d.vendor_specific_ntf_len > 0 then
        some ((List.range d.vendor_specific_ntf_len).map d.vendor_specific_ntf_data)
      else
        none
    let rangeDataObject : Option UwbRangingDataU :=
      if d.ranging_measure_type = MEASUREMENT_TYPE_TWOWAY then
        some (UwbRangingDataU.twoWay d.seq_counter d.session_id d.rcr_indication
          d.curr_range_interval d.ranging_measure_type d.mac_addr_mode_indicator
          d.no_of_measurements
          ((List.range d.no_of_measurements).map fun i =>
            marshalTwoWayMeasurementU d.mac_addr_mode_indicator (d.twr_range_measr i))
          vendorSpecificData)
      else if d.ranging_measure_type = MEASUREMENT_TYPE_DLTDOA then
        some (UwbRangingDataU.dlTdoa d.seq_counter d.session_id d.rcr_indication
          d.curr_range_interval d.ranging_measure_type d.mac_addr_mode_indicator
          d.no_of_measurements
          ((List.range d.no_of_measurements).map fun i =>
            marshalDlTdoaMeasurement d.mac_addr_mode_indicator (d.dltdoa_range_measr i))
          vendorSpecificData)
      else if d.ranging_measure_type = MEASUREMENT_TYPE_OWR_WITH_AOA then
        some (UwbRangingDataU.owrAoa d.seq_counter d.session_id d.rcr_indication
          d.curr_range_interval d.ranging_measure_type d.mac_addr_mode_indicator
          d.no_of_measurements
          (marshalOwrAoaMeasurement d.mac_addr_mode_indicator d.owr_with_aoa_range_measr)
          vendorSpecificData)
      else
        none
    match rangeDataObject with
    | some obj => dispatchToListener mid throws obj
    | none => NtfOutcome.notDelivered none

/- ------------------------------------------------------------------ -/
/- Claims C8 and C9                                                    -/
/- ------------------------------------------------------------------ -/

/-- C8: in the active version, every notification whose tag is not
two-way — any tag at all — is marshalled through the TDoA branch and, with
a registered listener, delivered as a TDoA measurement array of length
`no_of_measurements`. -/
theorem active_non_twoway_delivered_as_tdoa (d : RangeDataNtf) (throws : Bool)
    (h : d.ranging_measure_type ≠ MEASUREMENT_TYPE_TWOWAY) :
    ∃ ms : List UwbTDoAMeasurement,
      onRangeDataNotificationReceivedA true true throws d =
        NtfOutcome.delivered
          (UwbRangingDataA.tdoa d.seq_counter d.session_id d.rcr_indication
            d.curr_range_interval d.ranging_measure_type d.mac_addr_mode_indicator
            d.no_of_measurements ms) throws ∧
      ms.length = d.no_of_measurements := by
  refine ⟨(List.range d.no_of_measurements).map fun i =>
    marshalTdoaMeasurementA d.mac_addr_mode_indicator (d.tdoa_range_measr i), ?_, by simp⟩
  simp [onRangeDataNotificationReceivedA, dispatchToListener, deliverAndHandle,
    CallVoidMethod, ExceptionCheck, ExceptionClear, h]
  cases throws <;> simp

/-- A sample DL-TDoA measurement entry for concrete instantiations. -/
def sampleDlTdoaMeasr : DlTdoaRangeMeasr :=
  { mac_addr := fun _ => 0
    status := 0
    message_type := 0
    message_control := 0
    block_index := 0
    round_index := 0
    nLos := 0
    aoa_azimuth := 0
    aoa_azimuth_FOM := 0
    aoa_elevation := 0
    aoa_elevation_FOM := 0
    txTimeStamp := fun _ => 0
    rxTimeStamp := fun _ => 0
    cfo_anchor := 0
    cfo := 0
    initiator_reply_time := 0
    responder_reply_time := 0
    initiator_responder_TOF := 0
    anchor_location := fun _ => 0
    active_ranging_round := fun _ => 0 }

/-- A sample one-way-with-AoA measurement entry. -/
def sampleOwrAoaMeasr : OwrAoaRangeMeasr :=
  { mac_addr := fun _ => 0
    status := 0
    nLos := 0
    frame_seq_num := 0
    block_index := 0
    aoa_azimuth := 0
    aoa_azimuth_FOM := 0
    aoa_elevation := 0
    aoa_elevation_FOM := 0 }

/-- A sample one-way TDoA measurement entry (active version). -/
def sampleTdoaMeasr : TdoaRangeMeasr :=
  { mac_addr := fun _ => 0
    rfu := fun _ => 0
    frame_type := 0
    nLos := 0
    aoa_azimuth := 0
    aoa_azimuth_FOM := 0
    aoa_elevation := 0
    aoa_elevation_FOM := 0
    timeStamp := 0
    blink_frame_number := 0
    device_info_size := 0
    device_info := fun _ => 0
    blink_payload_size := 0
    blink_payload_data := fun _ => 0 }

/-- A sample ranging notification with the given measurement-type tag. -/
def sampleRangeNtf (tag : Nat) : RangeDataNtf :=
  { seq_counter := 1
    session_id := 42
    rcr_indication := 0
    curr_range_interval := 100
    ranging_measure_type := tag
    mac_addr_mode_indicator := SHORT_MAC_ADDRESS
    no_of_measurements := 1
    twr_range_measr := fun _ => sampleTwr
    dltdoa_range_measr := fun _ => sampleDlTdoaMeasr
    owr_with_aoa_range_measr := sampleOwrAoaMeasr
    tdoa_range_measr := fun _ => sampleTdoaMeasr
    vendor_specific_ntf_len := 0
    vendor_specific_ntf_data := fun _ => 0 }

/-- C8 witness: a tag (7) outside the whole defined set still flows through
the TDoA branch of the active version and is delivered. -/
theorem active_non_twoway_delivered_as_tdoa_witness :
    ∃ ms : List UwbTDoAMeasurement,
      onRangeDataNotificationReceivedA true true false (sampleRangeNtf 7) =
        NtfOutcome.delivered (UwbRangingDataA.tdoa 1 42 0 100 7 0 1 ms) false ∧
      ms.length = 1 :=
  active_non_twoway_delivered_as_tdoa (sampleRangeNtf 7) false (by decide)

/-- C9: in the superseded version, a tag outside {two-way, downlink-TDoA,
one-way-with-AoA} leaves the ranging-data object NULL, so the guarded
delivery is skipped (no object, no callback) and the handler returns
normally, whatever the method-id and listener states. -/
theorem superseded_unknown_tag_not_delivered (d : RangeDataNtf)
    (h1 : d.ranging_measure_type ≠ MEASUREMENT_TYPE_TWOWAY)
    (h2 : d.ranging_measure_type ≠ MEASUREMENT_TYPE_DLTDOA)
    (h3 : d.ranging_measure_type ≠ MEASUREMENT_TYPE_OWR_WITH_AOA) :
    ∀ mid throws : Bool,
      onRangeDataNotificationReceivedU true mid throws d =
        NtfOutcome.notDelivered none := by
  intro mid throws
  simp [onRangeDataNotificationReceivedU, h1, h2, h3]

/-- C9 witness: tag 9 is outside the defined set; the superseded handler
builds nothing and delivers nothing. -/
theorem superseded_unknown_tag_not_delivered_witness :
    onRangeDataNotificationReceivedU true true false (sampleRangeNtf 9) =
      NtfOutcome.notDelivered none :=
  superseded_unknown_tag_not_delivered (sampleRangeNtf 9)
    (by decide) (by decide) (by decide) true false

/- ------------------------------------------------------------------ -/
/- Multicast-list-update handlers                                      -/
/- ------------------------------------------------------------------ -/

/-- The `tUWA_SESSION_UPDATE_MULTICAST_LIST_NTF` struct; the three parallel
lists are element-at-index functions over the struct's fixed arrays. -/
structure MulticastListNtf where
  session_id : Nat
  remaining_list : Nat
  no_of_controlees : Nat
  controlee_mac_address_list : Nat → Nat
  subsession_id_list : Nat → Nat
  status_list : Nat → Nat

/-- `com/android/uwb/data/UwbMulticastListUpdateStatus` as constructed by
the active version (constructor signature `(JII[J[I)V`). -/
structure UwbMulticastListUpdateStatusA where
  session_id : Nat
  remaining_list : Nat
  no_of_controlees : Nat
  subSessionIdArray : List Nat
  statusArray : List Nat
deriving DecidableEq

/-- `com/android/server/uwb/data/UwbMulticastListUpdateStatus` as
constructed by the superseded version (constructor signature
`(JII[I[J[I)V`, with the controlee mac-address array). -/
structure UwbMulticastListUpdateStatusU where
  session_id : Nat
  remaining_list : Nat
  no_of_controlees : Nat
  controleeMacAddressArray : List Nat
  subSessionIdArray : List Nat
  statusArray : List Nat
deriving DecidableEq

/-- Active version, lines 316-369: `onMulticastListUpdateNotificationReceived`.
Env and null-struct checks, then the arrays are allocated at the controlee
count (the copy loops run only for a positive count), the object is
constructed and delivery is attempted.  There is no bound check on the
controlee count in this version. -/
def onMulticastListUpdateNotificationReceivedA (envAvailable mid throws : Bool)
    (multicast_list_ntf : Option MulticastListNtf) :
    NtfOutcome UwbMulticastListUpdateStatusA :=
  if envAvailable = false then
    NtfOutcome.envNullReturn
  else
    match multicast_list_ntf with
    | none => NtfOutcome.inputRejected
    | some n =>
      let subSessionIdArray := (List.range n.no_of_controlees).map n.subsession_id_list
      let statusArray := (List.range n.no_of_controlees).map n.status_list
      let multicastUpdateListDataObject : UwbMulticastListUpdateStatusA :=
        { session_id := n.session_id
          remaining_list := n.remaining_list
          no_of_controlees := n.no_of_controlees
          subSessionIdArray := subSessionIdArray
          statusArray := statusArray }
      dispatchToListener mid throws multicastUpdateListDataObject

/-- Superseded version, lines 508-579: same shape, but with the additional
bound check `no_of_controlees > MAX_NUM_CONTROLLEES → return` before any
array or object construction, and with the controlee mac-address array. -/
def onMulticastListUpdateNotificationReceivedU (envAvailable mid throws : Bool)
    (multicast_list_ntf : Option MulticastListNtf) :
    NtfOutcome UwbMulticastListUpdateStatusU :=
  if envAvailable = false then
    NtfOutcome.envNullReturn
  else
    match multicast_list_ntf with
    | none => NtfOutcome.inputRejected
    | some n =>
      if n.no_of_controlees > MAX_NUM_CONTROLLEES then
        NtfOutcome.rejectedTooMany
      else
        let controleeMacAddressArray :=
          (List.range n.no_of_controlees).map n.controlee_mac_address_list
        let subSessionIdArray := (List.range n.no_of_controlees).map n.subsession_id_list
        let statusArray := (List.range n.no_of_controlees).map n.status_list
        let multicastUpdateListDataObject : UwbMulticastListUpdateStatusU :=
          { session_id := n.session_id
            remaining_list := n.remaining_list
            no_of_controlees := n.no_of_controlees
            controleeMacAddressArray := controleeMacAddressArray
            subSessionIdArray := subSessionIdArray
            statusArray := statusArray }
        dispatchToListener mid throws multicastUpdateListDataObject

/-- A sample multicast-list-update notification with the given controlee
count. -/
def sampleMulticastNtf (count : Nat) : MulticastListNtf :=
  { session_id := 42
    remaining_list := 0
    no_of_controlees := count
    controlee_mac_address_list := fun _ => 3
    subsession_id_list := fun _ => 5
    status_list := fun _ => 7 }

/- ------------------------------------------------------------------ -/
/- Claims C5 and C10                                                   -/
/- ------------------------------------------------------------------ -/

/-- C5 counterexample: the claim covers both versions of
`onMulticastListUpdateNotificationReceived`, but the active version has no
controlee-count bound check: at count `MAX_NUM_CONTROLLEES + 1 = 9` it
constructs the update object and attempts delivery instead of rejecting the
call. -/
theorem active_multicast_over_max_not_rejected :
    onMulticastListUpdateNotificationReceivedA true true false
        (some (sampleMulticastNtf (MAX_NUM_CONTROLLEES + 1))) =
      NtfOutcome.delivered
        { session_id := 42
          remaining_list := 0
          no_of_controlees := 9
          subSessionIdArray := [5, 5, 5, 5, 5, 5, 5, 5, 5]
          statusArray := [7, 7, 7, 7, 7, 7, 7, 7, 7] } false := by
  decide

/-- C5 (amended): in the superseded version, a controlee count exceeding
the fixed maximum is rejected before any object construction — no object is
built, no delivery is attempted, the call returns after logging only; the
active version has no such check and, with the environment and listener
available, constructs the object and attempts delivery. -/
theorem superseded_multicast_over_max_rejected (n : MulticastListNtf)
    (h : n.no_of_controlees > MAX_NUM_CONTROLLEES) :
    ∀ envAvailable mid throws : Bool,
      (envAvailable = true →
        onMulticastListUpdateNotificationReceivedU envAvailable mid throws (some n) =
          NtfOutcome.rejectedTooMany) ∧
      (onMulticastListUpdateNotificationReceivedU envAvailable mid throws (some n) =
          NtfOutcome.envNullReturn ∨
        onMulticastListUpdateNotificationReceivedU envAvailable mid throws (some n) =
          NtfOutcome.rejectedTooMany) ∧
      (∃ obj, onMulticastListUpdateNotificationReceivedA true true throws (some n) =
        NtfOutcome.delivered obj (deliverAndHandle throws { pendingException := false }).2) := by
  intro envAvailable mid throws
  refine ⟨?_, ?_, ?_⟩
  · intro he
    simp [onMulticastListUpdateNotificationReceivedU, he, h]
  · cases envAvailable
    · left
      simp [onMulticastListUpdateNotificationReceivedU]
    · right
      simp [onMulticastListUpdateNotificationReceivedU, h]
  · exact ⟨{ session_id := n.session_id
             remaining_list := n.remaining_list
             no_of_controlees := n.no_of_controlees
             subSessionIdArray := (List.range n.no_of_controlees).map n.subsession_id_list
             statusArray := (List.range n.no_of_controlees).map n.status_list },
      by simp [onMulticastListUpdateNotificationReceivedA, dispatchToListener]⟩

/-- C5 witness: instantiated at count 9 = maximum + 1. -/
theorem superseded_multicast_over_max_rejected_witness :
    onMulticastListUpdateNotificationReceivedU true true false
        (some (sampleMulticastNtf 9)) =
      NtfOutcome.rejectedTooMany :=
  ((superseded_multicast_over_max_rejected (sampleMulticastNtf 9) (by decide))
    true true false).1 rfl

/-- C10: a multicast-list-update with controlee count 0 is not rejected in
either version: the update object is constructed with zero-length parallel
arrays (the copy loops are skipped) and delivery to the listener is still
attempted. -/
theorem multicast_zero_controlees_delivered (n : MulticastListNtf)
    (h : n.no_of_controlees = 0) :
    ∀ throws : Bool,
      onMulticastListUpdateNotificationReceivedU true true throws (some n) =
        NtfOutcome.delivered
          { session_id := n.session_id
            remaining_list := n.remaining_list
            no_of_controlees := 0
            controleeMacAddressArray := []
            subSessionIdArray := []
            statusArray := [] }
          (deliverAndHandle throws { pendingException := false }).2 ∧
      onMulticastListUpdateNotificationReceivedA true true throws (some n) =
        NtfOutcome.delivered
          { session_id := n.session_id
            remaining_list := n.remaining_list
            no_of_controlees := 0
            subSessionIdArray := []
            statusArray := [] }
          (deliverAndHandle throws { pendingException := false }).2 := by
  intro throws
  constructor
  · simp [onMulticastListUpdateNotificationReceivedU, h, MAX_NUM_CONTROLLEES,
      dispatchToListener]
  · simp [onMulticastListUpdateNotificationReceivedA, h, dispatchToListener]

/-- C10 witness: instantiated at the sample notification with count 0 and a
non-throwing listener. -/
theorem multicast_zero_controlees_delivered_witness :
    onMulticastListUpdateNotificationReceivedU true true false
        (some (sampleMulticastNtf 0)) =
      NtfOutcome.delivered
        { session_id := 42
          remaining_list := 0
          no_of_controlees := 0
          controleeMacAddressArray := []
          subSessionIdArray := []
          statusArray := [] } false ∧
    onMulticastListUpdateNotificationReceivedA true true false
        (some (sampleMulticastNtf 0)) =
      NtfOutcome.delivered
        { session_id := 42
          remaining_list := 0
          no_of_controlees := 0
          subSessionIdArray := []
          statusArray := [] } false :=
  multicast_zero_controlees_delivered (sampleMulticastNtf 0) rfl false

/- ------------------------------------------------------------------ -/
/- The remaining notification entry points (superseded version)        -/
/- ------------------------------------------------------------------ -/

/-- Superseded version, lines 400-430: `onRawUciNotificationReceived`.
Env check first, then the zero-length / null-data rejection, then the byte
array copy and guarded delivery. -/
def onRawUciNotificationReceivedU (envAvailable mid throws : Bool)
    (data : Option (Nat → Nat)) (length : Nat) : NtfOutcome (List Nat) :=
  if envAvailable = false then
    NtfOutcome.envNullReturn
  else
    match data with
    | none => NtfOutcome.inputRejected
    | some f =>
      if length = 0 then
        NtfOutcome.inputRejected
      else
        dispatchToListener mid throws ((List.range length).map f)

/-- Superseded version, lines 432-457: `onSessionStatusNotificationReceived`;
the delivered payload is the (sessionId, state, reasonCode) triple. -/
def onSessionStatusNotificationReceivedU (envAvailable mid throws : Bool)
    (sessionId state reasonCode : Nat) : NtfOutcome (Nat × Nat × Nat) :=
  if envAvailable = false then
    NtfOutcome.envNullReturn
  else
    dispatchToListener mid throws (sessionId, state, reasonCode)

/-- Superseded version, lines 459-481: `onDeviceStateNotificationReceived`. -/
def onDeviceStateNotificationReceivedU (envAvailable mid throws : Bool)
    (state : Nat) : NtfOutcome Nat :=
  if envAvailable = false then
    NtfOutcome.envNullReturn
  else
    dispatchToListener mid throws state

/-- Superseded version, lines 483-506: `onCoreGenericErrorNotificationReceived`. -/
def onCoreGenericErrorNotificationReceivedU (envAvailable mid throws : Bool)
    (state : Nat) : NtfOutcome Nat :=
  if envAvailable = false then
    NtfOutcome.envNullReturn
  else
    dispatchToListener mid throws state

/-- Superseded version, lines 581-603: `onBlinkDataTxNotificationReceived`. -/
def onBlinkDataTxNotificationReceivedU (envAvailable mid throws : Bool)
    (status : Nat) : NtfOutcome Nat :=
  if envAvailable = false then
    NtfOutcome.envNullReturn
  else
    dispatchToListener mid throws status

/-- Superseded version, lines 605-628: `onVendorUciNotificationReceived`;
the payload delivered is (gid, oid, data bytes); this handler has the env
null check but no null-data check. -/
def onVendorUciNotificationReceivedU (envAvailable mid throws : Bool)
    (gid oid : Nat) (data : Nat → Nat) (length : Nat) :
    NtfOutcome (Nat × Nat × List Nat) :=
  if envAvailable = false then
    NtfOutcome.envNullReturn
  else
    dispatchToListener mid throws (gid, oid, (List.range length).map data)

/-- Superseded version, lines 630-652: `onVendorDeviceInfo`.  The
zero-length / null-data rejection comes first; then the scoped JNI
environment is constructed and used immediately — this handler alone has no
`env == NULL` check, so an unavailable environment reaches
`env->NewByteArray` on a null scoped environment (`nullEnvDeref`). -/
def onVendorDeviceInfoU (envAvailable mid throws : Bool)
    (data : Option (Nat → Nat)) (length : Nat) : NtfOutcome (List Nat) :=
  match data with
  | none => NtfOutcome.inputRejected
  | some f =>
    if length = 0 then
      NtfOutcome.inputRejected
    else if envAvailable = false then
      NtfOutcome.nullEnvDeref
    else
      dispatchToListener mid throws ((List.range length).map f)

/- ------------------------------------------------------------------ -/
/- Claims C6 and C7                                                    -/
/- ------------------------------------------------------------------ -/

/-- C6: the claim says every notification entry point returns without
effect when the scoped environment is null, "including onVendorDeviceInfo".
Every other handler does check and return — but `onVendorDeviceInfo` never
null-checks its scoped environment: with valid data and an unavailable
environment it proceeds to use the null environment
(`env->NewByteArray`), the `nullEnvDeref` outcome, instead of skipping and
returning.  Evaluated here at the failing input and, for contrast, at the
same environment state for each of the other entry points. -/
theorem vendor_device_info_missing_env_check :
    onVendorDeviceInfoU false true false (some fun _ => 1) 1 =
      NtfOutcome.nullEnvDeref ∧
    onRangeDataNotificationReceivedU false true false (sampleRangeNtf 1) =
      NtfOutcome.envNullReturn ∧
    onRangeDataNotificationReceivedA false true false (sampleRangeNtf 1) =
      NtfOutcome.envNullReturn ∧
    onRawUciNotificationReceivedU false true false (some fun _ => 1) 1 =
      NtfOutcome.envNullReturn ∧
    onSessionStatusNotificationReceivedU false true false 1 2 3 =
      NtfOutcome.envNullReturn ∧
    onDeviceStateNotificationReceivedU false true false 1 =
      NtfOutcome.envNullReturn ∧
    onCoreGenericErrorNotificationReceivedU false true false 1 =
      NtfOutcome.envNullReturn ∧
    onBlinkDataTxNotificationReceivedU false true false 1 =
      NtfOutcome.envNullReturn ∧
    onVendorUciNotificationReceivedU false true false 1 2 (fun _ => 1) 1 =
      NtfOutcome.envNullReturn ∧
    onMulticastListUpdateNotificationReceivedU false true false
        (some (sampleMulticastNtf 1)) =
      NtfOutcome.envNullReturn ∧
    onMulticastListUpdateNotificationReceivedA false true false
        (some (sampleMulticastNtf 1)) =
      NtfOutcome.envNullReturn :=
  ⟨rfl, rfl, rfl, rfl, rfl, rfl, rfl, rfl, rfl, rfl, rfl⟩

/-- C7: the delivery tail shared by every handler of both versions checks,
logs and clears a listener exception: the pending-exception flag is always
false at handler return (the fault never propagates to the native caller),
the failure trace is logged exactly when the listener threw, a subsequent
notification behaves as if the first had never faulted, and the guarded
dispatch always ends in one of the two normal-return outcomes with the
fault flag equal to the listener's behaviour. -/
theorem listener_exception_cleared (throws : Bool) (s : JniState) :
    (deliverAndHandle throws s).1.pendingException = false ∧
    (deliverAndHandle throws s).2 = throws ∧
    (∀ throws2 : Bool,
      deliverAndHandle throws2 (deliverAndHandle throws s).1 =
        deliverAndHandle throws2 s) ∧
    (∀ (Obj : Type) (obj : Obj) (mid : Bool),
      dispatchToListener mid throws obj = NtfOutcome.delivered obj throws ∨
      dispatchToListener mid throws obj = NtfOutcome.notDelivered (some obj)) := by
  refine ⟨?_, ?_, ?_, ?_⟩
  · cases throws <;>
      simp [deliverAndHandle, CallVoidMethod, ExceptionCheck, ExceptionClear]
  · cases throws <;>
      simp [deliverAndHandle, CallVoidMethod, ExceptionCheck, ExceptionClear]
  · intro throws2
    cases throws <;> cases throws2 <;>
      simp [deliverAndHandle, CallVoidMethod, ExceptionCheck, ExceptionClear]
  · intro Obj obj mid
    cases mid
    · right
      simp [dispatchToListener]
    · left
      cases throws <;>
        simp [dispatchToListener, deliverAndHandle, CallVoidMethod, ExceptionCheck,
          ExceptionClear]
